import Mathlib

/-!
Shallow embedding of the AI services of the Artificial-Intelligent-Project-Manager
repository (heuristic paths of the Duration Estimator, Task Suggester and
Workflow Analyzer), together with theorems settling the frozen claims.

JS numbers are modelled by `ℚ` (all the arithmetic under scrutiny is exact
decimal arithmetic followed by rounding to one decimal place); `Math.round`
is Mathlib's `round` (both round half toward positive infinity).
-/

namespace AIPM

/-! ## Data model (spec §3, Swagger schemas, mongoose models) -/

inductive Priority
| low
| medium
| high
deriving DecidableEq, Repr

inductive Status
| todo
| inProgress
| review
| completed
deriving DecidableEq, Repr

structure Task where
  title : String
  status : Status
  priority : Priority
  assignedTo : Option String
deriving DecidableEq, Repr

structure Project where
  name : String
  description : String
  startDate : ℤ
  endDate : ℤ
  owner : String
  members : List String
deriving DecidableEq, Repr

structure Member where
  id : String
  name : String
  email : String
deriving DecidableEq, Repr

/-- Floor of a rational, computed on the numerator and denominator so that the
kernel can evaluate it. -/
def ratFloor (q : ℚ) : ℤ := q.num / (q.den : ℤ)

/-- JavaScript `Math.round`: round half toward positive infinity. -/
def jsRound (q : ℚ) : ℤ := ratFloor (q + 1/2)

/-- `Math.round(x * 10) / 10`: round to one decimal place. -/
def round1 (x : ℚ) : ℚ := (jsRound (x * 10) : ℤ) / 10

/-! ## Duration Estimator, heuristic path
(src/services/ai/durationPrediction.js, lines 315-365) -/

/-- Base duration by priority: high→3, medium→5, else→7
(durationPrediction.js lines 322-329). -/
def basePrediction (p : Priority) : ℚ :=
  if p = Priority.high then 3
  else if p = Priority.medium then 5
  else 7

/-- Status adjustment: in-progress→×0.7, review→×0.3, else unchanged
(durationPrediction.js lines 333-342). -/
def adjustForStatus (s : Status) (base : ℚ) : ℚ :=
  if s = Status.inProgress then base * (7/10)
  else if s = Status.review then base * (3/10)
  else base

/-- The status multiplier as a standalone factor (spec §4.2 step 2):
in-progress→0.7, review→0.3, any other status→1. -/
def statusMultiplier (s : Status) : ℚ :=
  if s = Status.inProgress then 7/10
  else if s = Status.review then 3/10
  else 1

structure DurationPrediction where
  taskTitle : String
  predictedDays : ℚ
  bestCase : ℚ
  worstCase : ℚ
  confidence : ℚ
  method : String
deriving DecidableEq, Repr

/-- The heuristic branch of `predictTaskDuration`
(durationPrediction.js lines 315-365). -/
def predictTaskDurationHeuristic (task : Task) : DurationPrediction :=
  let adjustedPrediction := adjustForStatus task.status (basePrediction task.priority)
  let predictedDays := round1 adjustedPrediction
  let bestCase := max (1/2) (round1 (predictedDays * (7/10)))
  let worstCase := round1 (predictedDays * (3/2))
  { taskTitle := task.title
    predictedDays := predictedDays
    bestCase := bestCase
    worstCase := worstCase
    confidence := 3/4
    method := "heuristic" }

/-! ## Character-level string utilities
JS `String.prototype.toLowerCase`, `String.prototype.includes` and global
regex match counting (`str.match(new RegExp(kw, "g"))`, all keywords being
literal patterns), modelled on `List Char`. -/

/-- Lowercase a string, as a character list. -/
def toLowerList (s : String) : List Char := s.toList.map Char.toLower

/-- Is `pat` a prefix of `l`? -/
def isPrefixList : List Char → List Char → Bool
  | [], _ => true
  | _ :: _, [] => false
  | a :: as, b :: bs => a = b && isPrefixList as bs

/-- `hay.includes(pat)`. -/
def containsSubstring (pat : List Char) : List Char → Bool
  | [] => pat.isEmpty
  | c :: rest => isPrefixList pat (c :: rest) || containsSubstring pat rest

/-- Helper for `countMatches`: `skip` characters of a previous match are
still to be passed over (left-to-right, non-overlapping matching, as the
`g`-flag regex engine does for literal patterns). -/
def countMatchesAux (pat : List Char) : List Char → ℕ → ℕ
  | [], _ => 0
  | c :: rest, skip =>
    if skip > 0 then countMatchesAux pat rest (skip - 1)
    else if isPrefixList pat (c :: rest) && !pat.isEmpty then
      1 + countMatchesAux pat rest (pat.length - 1)
    else countMatchesAux pat rest 0

/-- `(hay.match(new RegExp(pat, "g")) || []).length` for a literal pattern:
number of non-overlapping left-to-right occurrences of `pat` in `hay`. -/
def countMatches (pat hay : List Char) : ℕ := countMatchesAux pat hay 0

/-- `Array.prototype.join(" ")` on character lists. -/
def joinWithSpace : List (List Char) → List Char
  | [] => []
  | [x] => x
  | x :: y :: xs => x ++ ' ' :: joinWithSpace (y :: xs)

/-! ## Workflow Analyzer, heuristic path
(src/services/ai/workflowOptimization.js) -/

/-- Task counts per status (workflowOptimization.js lines 370-375). -/
structure TasksByStatus where
  todo : ℕ
  inProgress : ℕ
  review : ℕ
  completed : ℕ
deriving DecidableEq, Repr

def countByStatus (tasks : List Task) (s : Status) : ℕ :=
  (tasks.filter (fun t => t.status == s)).length

def tasksByStatusOf (tasks : List Task) : TasksByStatus :=
  { todo := countByStatus tasks Status.todo
    inProgress := countByStatus tasks Status.inProgress
    review := countByStatus tasks Status.review
    completed := countByStatus tasks Status.completed }

/-- Per-member workload record (workflowOptimization.js lines 387-399). -/
structure MemberWorkload where
  name : String
  email : String
  assignedTasks : ℕ
  todoTasks : ℕ
  inProgressTasks : ℕ
  reviewTasks : ℕ
  completedTasks : ℕ
deriving DecidableEq, Repr

def memberTasksOf (tasks : List Task) (m : Member) : List Task :=
  tasks.filter (fun t => t.assignedTo == some m.id)

def workloadOf (tasks : List Task) (m : Member) : MemberWorkload :=
  let memberTasks := memberTasksOf tasks m
  { name := m.name
    email := m.email
    assignedTasks := memberTasks.length
    todoTasks := countByStatus memberTasks Status.todo
    inProgressTasks := countByStatus memberTasks Status.inProgress
    reviewTasks := countByStatus memberTasks Status.review
    completedTasks := countByStatus memberTasks Status.completed }

/-- `taskAssignments`, in team-member order (JS object insertion order). -/
def taskAssignmentsOf (tasks : List Task) (members : List Member) : List MemberWorkload :=
  members.map (workloadOf tasks)

/-- `count / total || 0`: a status ratio, `0` when there are no tasks. -/
def statusFrac (count total : ℕ) : ℚ :=
  if total = 0 then 0 else (count : ℚ) / (total : ℚ)

/-- The five heuristic bottleneck scores, in source order
(workflowOptimization.js lines 419-467). -/
structure BottleneckScores where
  resourceBottleneck : ℚ
  taskDistributionScore : ℚ
  workflowEfficiency : ℚ
  taskDependencyScore : ℚ
  priorityAlignmentScore : ℚ
deriving DecidableEq, Repr

def bottleneckScoresHeuristic (tasks : List Task) (members : List Member) : BottleneckScores :=
  let tbs := tasksByStatusOf tasks
  let totalTasks := tasks.length
  let todoFrac := statusFrac tbs.todo totalTasks
  let inProgressFrac := statusFrac tbs.inProgress totalTasks
  let reviewFrac := statusFrac tbs.review totalTasks
  let assignedTaskCounts := (taskAssignmentsOf tasks members).map (fun m => m.assignedTasks)
  let maxTasks : ℕ := assignedTaskCounts.foldl max 1
  let minTasks : ℕ := assignedTaskCounts.foldl min 0
  let avgTasks : ℚ := (assignedTaskCounts.sum : ℚ) / (members.length : ℚ)
  let teamLoadBalance : ℚ :=
    if maxTasks = minTasks then 1 else 1 - ((maxTasks : ℚ) - avgTasks) / (maxTasks : ℚ)
  let resourceBottleneck := 1 - teamLoadBalance
  let maxFrac := max todoFrac (max inProgressFrac reviewFrac)
  let taskDistributionScore := if maxFrac > 1/2 then 1/2 + maxFrac * (1/2) else maxFrac
  let workflowEfficiency := |inProgressFrac - 3/10| + |reviewFrac - 1/5|
  let taskDependencyScore : ℚ := 1/2
  let highPriorityTasks := tasks.filter (fun t => t.priority == Priority.high)
  let highPriorityInProgress :=
    (highPriorityTasks.filter (fun t => t.status == Status.inProgress)).length
  let priorityAlignmentScore : ℚ :=
    if highPriorityTasks.length > 0 then
      1 - (highPriorityInProgress : ℚ) / (highPriorityTasks.length : ℚ)
    else 0
  { resourceBottleneck := resourceBottleneck
    taskDistributionScore := taskDistributionScore
    workflowEfficiency := workflowEfficiency
    taskDependencyScore := taskDependencyScore
    priorityAlignmentScore := priorityAlignmentScore }

/-- Score-to-level thresholds (workflowOptimization.js lines 533-537). -/
def getBottleneckLevel (score : ℚ) : String :=
  if score < 3/10 then "low"
  else if score < 3/5 then "medium"
  else "high"

def natStr (n : ℕ) : String := toString n

def intStr (i : ℤ) : String := toString i

/-- `Math.round(x * 100)` rendered as a string, for `%` interpolations. -/
def pctStr (x : ℚ) : String := toString (jsRound (x * 100))

/-- workflowOptimization.js lines 545-571. -/
def getResourceBottleneckDescription (score : ℚ) (assignments : List MemberWorkload) : String :=
  match assignments with
  | [] => "No team members found to analyze resource allocation."
  | m :: ms =>
    let mostTasksMember :=
      ms.foldl (fun prev current =>
        if prev.assignedTasks > current.assignedTasks then prev else current) m
    let leastTasksMember :=
      ms.foldl (fun prev current =>
        if prev.assignedTasks < current.assignedTasks then prev else current) m
    let taskDifference := mostTasksMember.assignedTasks - leastTasksMember.assignedTasks
    if score < 3/10 then
      "Team workload is well balanced. No significant resource bottlenecks detected."
    else if score < 3/5 then
      "Moderate workload imbalance detected. " ++ mostTasksMember.name ++ " has " ++
        natStr taskDifference ++ " more tasks than " ++ leastTasksMember.name ++ "."
    else
      "Significant workload imbalance detected. " ++ mostTasksMember.name ++ " has " ++
        natStr mostTasksMember.assignedTasks ++ " tasks, which is " ++ natStr taskDifference ++
        " more than " ++ leastTasksMember.name ++ "."

/-- workflowOptimization.js lines 579-615. -/
def getTaskDistributionDescription (score : ℚ) (tbs : TasksByStatus) : String :=
  let totalTasks := tbs.todo + tbs.inProgress + tbs.review + tbs.completed
  if totalTasks = 0 then "No tasks found to analyze distribution."
  else
    let todoFrac := (tbs.todo : ℚ) / (totalTasks : ℚ)
    let inProgressFrac := (tbs.inProgress : ℚ) / (totalTasks : ℚ)
    let reviewFrac := (tbs.review : ℚ) / (totalTasks : ℚ)
    if score < 3/10 then "Tasks are well distributed across different statuses."
    else if score < 3/5 then
      if todoFrac > 1/2 then
        "A large portion (" ++ pctStr todoFrac ++ "%) of tasks are still in the \x27To Do\x27 state."
      else if inProgressFrac > 2/5 then
        "Many tasks (" ++ pctStr inProgressFrac ++
          "%) are in the \x27In Progress\x27 state, which may indicate too many tasks being worked on simultaneously."
      else if reviewFrac > 3/10 then
        "A significant number of tasks (" ++ pctStr reviewFrac ++
          "%) are in the \x27Review\x27 state, which may be creating a bottleneck."
      else "Some task distribution issues detected but no major bottlenecks."
    else
      if todoFrac > 7/10 then
        "Most tasks (" ++ pctStr todoFrac ++
          "%) are still in the \x27To Do\x27 state, indicating the project may be having trouble getting started."
      else if inProgressFrac > 3/5 then
        "Too many tasks (" ++ pctStr inProgressFrac ++
          "%) are in the \x27In Progress\x27 state. The team may be spreading themselves too thin."
      else if reviewFrac > 1/2 then
        "Many tasks (" ++ pctStr reviewFrac ++
          "%) are stuck in the \x27Review\x27 state, creating a major bottleneck."
      else "Severe task distribution issues detected."

/-- workflowOptimization.js lines 623-640. -/
def getWorkflowEfficiencyDescription (score : ℚ) (tbs : TasksByStatus) : String :=
  if score < 3/10 then
    "Workflow is operating efficiently with good progression of tasks through all stages."
  else if score < 3/5 then
    "Moderate inefficiencies detected in how tasks progress through workflow stages."
  else
    if tbs.inProgress > tbs.review * 3 then
      "Too many tasks are in progress simultaneously compared to tasks in review, suggesting potential context switching issues."
    else if tbs.review > tbs.inProgress then
      "Tasks are getting stuck in review, creating a bottleneck in the workflow."
    else
      "Significant workflow inefficiencies detected that are impacting project progress."

/-- workflowOptimization.js lines 648-668. -/
def getPriorityAlignmentDescription (score : ℚ) (tasks : List Task) : String :=
  let highPriorityTasks := tasks.filter (fun t => t.priority == Priority.high)
  let highPriorityTodoCount := (highPriorityTasks.filter (fun t => t.status == Status.todo)).length
  let highPriorityInProgressCount :=
    (highPriorityTasks.filter (fun t => t.status == Status.inProgress)).length
  if score < 3/10 then
    "Task priorities are well aligned with current work. High-priority tasks are being addressed appropriately."
  else if score < 3/5 then
    if highPriorityTodoCount > highPriorityInProgressCount then
      "Some priority misalignment detected. " ++ natStr highPriorityTodoCount ++
        " high-priority tasks are waiting to be worked on."
    else "Some priority misalignment detected in how tasks are being worked on."
  else
    if highPriorityTodoCount > highPriorityInProgressCount * 2 then
      "Significant priority misalignment detected. " ++ natStr highPriorityTodoCount ++
        " high-priority tasks are waiting to be worked on, but only " ++
        natStr highPriorityInProgressCount ++ " are in progress."
    else "Significant priority misalignment detected in how work is being prioritized."

/-- One bottleneck dimension of the derived analysis (spec §3). -/
structure BottleneckDim where
  score : ℚ
  level : String
  description : String
deriving DecidableEq, Repr

/-- The five named dimensions (workflowOptimization.js lines 470-496). -/
structure BottleneckAnalysis where
  resourceBottleneck : BottleneckDim
  taskDistribution : BottleneckDim
  workflowEfficiency : BottleneckDim
  taskDependency : BottleneckDim
  priorityAlignment : BottleneckDim
deriving DecidableEq, Repr

/-- `Object.values(bottleneckAnalysis)`, in insertion order. -/
def analysisValues (ba : BottleneckAnalysis) : List BottleneckDim :=
  [ba.resourceBottleneck, ba.taskDistribution, ba.workflowEfficiency,
   ba.taskDependency, ba.priorityAlignment]

def buildBottleneckAnalysis (scores : BottleneckScores) (tasks : List Task)
    (tbs : TasksByStatus) (assignments : List MemberWorkload) : BottleneckAnalysis :=
  { resourceBottleneck :=
      { score := scores.resourceBottleneck
        level := getBottleneckLevel scores.resourceBottleneck
        description := getResourceBottleneckDescription scores.resourceBottleneck assignments }
    taskDistribution :=
      { score := scores.taskDistributionScore
        level := getBottleneckLevel scores.taskDistributionScore
        description := getTaskDistributionDescription scores.taskDistributionScore tbs }
    workflowEfficiency :=
      { score := scores.workflowEfficiency
        level := getBottleneckLevel scores.workflowEfficiency
        description := getWorkflowEfficiencyDescription scores.workflowEfficiency tbs }
    taskDependency :=
      { score := scores.taskDependencyScore
        level := getBottleneckLevel scores.taskDependencyScore
        description := "Task dependency analysis based on project structure" }
    priorityAlignment :=
      { score := scores.priorityAlignmentScore
        level := getBottleneckLevel scores.priorityAlignmentScore
        description := getPriorityAlignmentDescription scores.priorityAlignmentScore tasks } }

/-- A derived recommendation (spec §3, workflowOptimization.js lines 677-784). -/
structure Recommendation where
  type : String
  priority : String
  description : String
  action : String
deriving DecidableEq, Repr

def retrospectiveRecommendation : Recommendation :=
  { type := "general"
    priority := "medium"
    description := "Conduct a project retrospective to identify areas for workflow improvement"
    action := "retrospective" }

/-- The dimension-gated recommendation rules of `generateRecommendations`,
before the final fallback (workflowOptimization.js lines 678-771). -/
def mainRecommendations (ba : BottleneckAnalysis) (tasks : List Task)
    (assignments : List MemberWorkload) : List Recommendation :=
  let recs : List Recommendation := []
  let recs :=
    if ba.resourceBottleneck.level = "high" then
      let overloadedMembers :=
        (assignments.filter (fun m => m.assignedTasks > 5)).mergeSort
          (fun a b => b.assignedTasks ≤ a.assignedTasks)
      let underutilizedMembers :=
        (assignments.filter (fun m => m.assignedTasks < 3)).mergeSort
          (fun a b => a.assignedTasks ≤ b.assignedTasks)
      match overloadedMembers, underutilizedMembers with
      | o :: _, u :: _ =>
        recs ++ [{ type := "resource", priority := "high",
                   description := "Redistribute tasks from " ++ o.name ++ " (" ++
                     natStr o.assignedTasks ++ " tasks) to " ++ u.name ++ " (" ++
                     natStr u.assignedTasks ++ " tasks)",
                   action := "redistribute_tasks" }]
      | o :: _, [] =>
        recs ++ [{ type := "resource", priority := "high",
                   description := "Consider adding more team members to help with the workload, as " ++
                     o.name ++ " has " ++ natStr o.assignedTasks ++ " tasks assigned",
                   action := "add_resources" }]
      | [], _ => recs
    else if ba.resourceBottleneck.level = "medium" then
      recs ++ [{ type := "resource", priority := "medium",
                 description := "Review task assignments to ensure balanced workload across team members",
                 action := "review_assignments" }]
    else recs
  let recs :=
    if ba.taskDistribution.level = "high" then
      if containsSubstring ("To Do".toList) (ba.taskDistribution.description.toList) then
        recs ++ [{ type := "workflow", priority := "high",
                   description := "Start working on more tasks to move them from \"To Do\" to \"In Progress\"",
                   action := "start_tasks" }]
      else if containsSubstring ("In Progress".toList) (ba.taskDistribution.description.toList) then
        recs ++ [{ type := "workflow", priority := "high",
                   description := "Focus on completing current in-progress tasks before starting new ones",
                   action := "complete_in_progress" }]
      else if containsSubstring ("Review".toList) (ba.taskDistribution.description.toList) then
        recs ++ [{ type := "workflow", priority := "high",
                   description := "Dedicate time to review and complete tasks stuck in the review stage",
                   action := "review_tasks" }]
      else recs
    else recs
  let recs :=
    if ba.workflowEfficiency.level = "high" ∨ ba.workflowEfficiency.level = "medium" then
      let recs :=
        recs ++ [{ type := "process", priority := ba.workflowEfficiency.level,
                   description := "Implement daily stand-up meetings to improve workflow and identify blockers early",
                   action := "improve_communication" }]
      if containsSubstring ("context switching".toList) (ba.workflowEfficiency.description.toList) then
        recs ++ [{ type := "process", priority := "high",
                   description := "Limit work in progress (WIP) to reduce context switching and improve focus",
                   action := "limit_wip" }]
      else recs
    else recs
  let recs :=
    if ba.priorityAlignment.level = "high" ∨ ba.priorityAlignment.level = "medium" then
      let highPriorityTodoTasks :=
        tasks.filter (fun t => t.priority == Priority.high && t.status == Status.todo)
      if highPriorityTodoTasks.length > 0 then
        recs ++ [{ type := "priority", priority := "high",
                   description := "Focus on the " ++ natStr highPriorityTodoTasks.length ++
                     " high-priority tasks that haven\x27t been started yet",
                   action := "focus_on_priorities" }]
      else recs
    else recs
  recs

/-- `generateRecommendations` (workflowOptimization.js lines 677-784):
the gated rules followed by the generic fallback when fewer than two
recommendations were produced. -/
def generateRecommendations (ba : BottleneckAnalysis) (tasks : List Task)
    (assignments : List MemberWorkload) : List Recommendation :=
  let recommendations := mainRecommendations ba tasks assignments
  if recommendations.length < 2 then recommendations ++ [retrospectiveRecommendation]
  else recommendations

/-- A derived insight (spec §3). -/
structure Insight where
  type : String
  description : String
deriving DecidableEq, Repr

/-- The `expectedProgress` formula of `generateInsights`
(workflowOptimization.js line 798). -/
def expectedProgressJS (daysRemaining : ℤ) (projectProgress : ℚ) : ℚ :=
  1 - ((daysRemaining : ℚ) /
    ((daysRemaining : ℚ) + projectProgress * (daysRemaining : ℚ) / (1 - projectProgress)))

/-- `generateInsights` (workflowOptimization.js lines 794-851). -/
def generateInsights (ba : BottleneckAnalysis) (tbs : TasksByStatus)
    (daysRemaining : ℤ) (projectProgress : ℚ) : List Insight :=
  let insights : List Insight := []
  let expectedProgress := expectedProgressJS daysRemaining projectProgress
  let insights :=
    if projectProgress < expectedProgress - 1/10 then
      insights ++
        [{ type := "risk"
           description := "Project is behind schedule. Current progress is " ++
             pctStr projectProgress ++ "% but expected progress is " ++
             pctStr expectedProgress ++ "% based on time elapsed." }]
    else if projectProgress > expectedProgress + 1/10 then
      insights ++
        [{ type := "positive"
           description := "Project is ahead of schedule. Current progress is " ++
             pctStr projectProgress ++ "% while expected progress is " ++
             pctStr expectedProgress ++ "% based on time elapsed." }]
    else insights
  let insights :=
    if tbs.inProgress > 10 then
      insights ++
        [{ type := "risk"
           description := "Team is working on " ++ natStr tbs.inProgress ++
             " tasks simultaneously, which may lead to inefficiency and context switching." }]
    else insights
  let highBottlenecks := ((analysisValues ba).filter (fun b => b.level == "high")).length
  let insights :=
    if highBottlenecks ≥ 2 then
      insights ++
        [{ type := "risk"
           description := "Multiple high-level bottlenecks (" ++ natStr highBottlenecks ++
             ") detected, which may significantly impact project delivery." }]
    else if highBottlenecks = 0 then
      insights ++
        [{ type := "positive"
           description := "No high-level bottlenecks detected, indicating good project management practices." }]
    else insights
  let insights :=
    if daysRemaining < 7 ∧ projectProgress < 4/5 then
      insights ++
        [{ type := "urgent"
           description := "Only " ++ intStr daysRemaining ++ " days remaining until deadline with " ++
             pctStr projectProgress ++ "% completion. Deadline risk is high." }]
    else if daysRemaining < 14 ∧ projectProgress < 3/5 then
      insights ++
        [{ type := "risk"
           description := intStr daysRemaining ++ " days remaining until deadline with only " ++
             pctStr projectProgress ++ "% completion. Consider scope adjustment or deadline extension." }]
    else insights
  insights

/-- Milliseconds per day, the divisor of the date arithmetic. -/
def msPerDay : ℤ := 1000 * 60 * 60 * 24

/-- `Math.ceil(a / b)` for integer `a` and positive integer `b`. -/
def ceilDivInt (a b : ℤ) : ℤ := -((-a) / b)

structure Metrics where
  taskDistribution : TasksByStatus
  progress : ℚ
  daysRemaining : ℤ
  teamWorkload : List MemberWorkload
deriving DecidableEq, Repr

structure WorkflowResult where
  projectId : String
  projectName : String
  method : String
  metrics : Metrics
  bottleneckAnalysis : BottleneckAnalysis
  recommendations : List Recommendation
  insights : List Insight
deriving DecidableEq, Repr

/-- The heuristic body of `optimizeWorkflow` after the project, its tasks and
its team members have been fetched (workflowOptimization.js lines 369-521);
`now` is the current time in epoch milliseconds. -/
def optimizeWorkflowHeuristic (projectId : String) (project : Project)
    (tasks : List Task) (teamMembers : List Member) (now : ℤ) : WorkflowResult :=
  let tbs := tasksByStatusOf tasks
  let totalTasks := tasks.length
  let completedTasks := tbs.completed
  let projectProgress : ℚ :=
    if totalTasks > 0 then (completedTasks : ℚ) / (totalTasks : ℚ) else 0
  let daysRemaining : ℤ := ceilDivInt (project.endDate - now) msPerDay
  let taskAssignments := taskAssignmentsOf tasks teamMembers
  let scores := bottleneckScoresHeuristic tasks teamMembers
  let ba := buildBottleneckAnalysis scores tasks tbs taskAssignments
  { projectId := projectId
    projectName := project.name
    method := "heuristic"
    metrics :=
      { taskDistribution := tbs
        progress := projectProgress
        daysRemaining := daysRemaining
        teamWorkload := taskAssignments }
    bottleneckAnalysis := ba
    recommendations := generateRecommendations ba tasks taskAssignments
    insights := generateInsights ba tbs daysRemaining projectProgress }

/-! ## Services with identifier validation and lookups
(workflowOptimization.js lines 341-367, durationPrediction.js lines 259-275).
The document store and the ObjectId format check are parameters. -/

structure Db where
  findProjectById : String → Option Project
  findTaskById : String → Option Task
  findTasksByProject : String → List Task
  findUsersByIds : List String → List Member

def invalidProjectIdMsg : String := "Invalid project ID format. Must be a valid MongoDB ObjectId"

def invalidTaskIdMsg : String := "Invalid task ID format. Must be a valid MongoDB ObjectId"

def projectNotFoundMsg : String := "Project not found"

def taskNotFoundMsg : String := "Task not found"

/-- `optimizeWorkflow` (workflowOptimization.js lines 341-526): validate the
identifier before any fetch, then fetch, then analyze (heuristic path). -/
def optimizeWorkflowService (isValidObjectId : String → Bool) (db : Db) (now : ℤ)
    (projectId : String) : Except String WorkflowResult :=
  if ¬ isValidObjectId projectId then Except.error invalidProjectIdMsg
  else
    match db.findProjectById projectId with
    | none => Except.error projectNotFoundMsg
    | some project =>
      let tasks := db.findTasksByProject projectId
      let teamMembers := db.findUsersByIds (project.members ++ [project.owner])
      Except.ok (optimizeWorkflowHeuristic projectId project tasks teamMembers now)

/-- `predictTaskDuration` (durationPrediction.js lines 259-371): validate the
identifier before any fetch, then fetch, then predict (heuristic path). -/
def predictTaskDurationService (isValidObjectId : String → Bool) (db : Db)
    (taskId : String) : Except String DurationPrediction :=
  if ¬ isValidObjectId taskId then Except.error invalidTaskIdMsg
  else
    match db.findTaskById taskId with
    | none => Except.error taskNotFoundMsg
    | some task => Except.ok (predictTaskDurationHeuristic task)

/-! ## Task Suggester, heuristic path
(src/unnamed/part_006, `suggestTasks`, lines 35-510) -/

/-- A task template: `{title, priority, category}` (part_006 lines 35-76). -/
structure TaskTemplate where
  title : String
  priority : Priority
  category : String
deriving DecidableEq, Repr

def developmentTemplates : List TaskTemplate :=
  [ { title := "Setup development environment", priority := Priority.high, category := "setup" },
    { title := "Create project structure", priority := Priority.high, category := "setup" },
    { title := "Setup version control", priority := Priority.high, category := "setup" },
    { title := "Define API endpoints", priority := Priority.medium, category := "planning" },
    { title := "Create database schema", priority := Priority.high, category := "planning" },
    { title := "Implement authentication", priority := Priority.high, category := "implementation" },
    { title := "Implement user management", priority := Priority.medium, category := "implementation" },
    { title := "Create frontend components", priority := Priority.medium, category := "implementation" },
    { title := "Setup CI/CD pipeline", priority := Priority.medium, category := "infrastructure" },
    { title := "Write unit tests", priority := Priority.medium, category := "testing" },
    { title := "Perform integration testing", priority := Priority.medium, category := "testing" },
    { title := "Deploy to staging", priority := Priority.medium, category := "deployment" },
    { title := "Deploy to production", priority := Priority.high, category := "deployment" },
    { title := "Write documentation", priority := Priority.low, category := "documentation" } ]

def marketingTemplates : List TaskTemplate :=
  [ { title := "Define target audience", priority := Priority.high, category := "planning" },
    { title := "Conduct market research", priority := Priority.high, category := "research" },
    { title := "Create marketing strategy", priority := Priority.high, category := "planning" },
    { title := "Design marketing materials", priority := Priority.medium, category := "creation" },
    { title := "Setup social media accounts", priority := Priority.medium, category := "setup" },
    { title := "Create content calendar", priority := Priority.medium, category := "planning" },
    { title := "Launch social media campaign", priority := Priority.high, category := "execution" },
    { title := "Monitor campaign performance", priority := Priority.medium, category := "monitoring" },
    { title := "Create analytical report", priority := Priority.low, category := "reporting" } ]

def generalTemplates : List TaskTemplate :=
  [ { title := "Define project scope", priority := Priority.high, category := "planning" },
    { title := "Create project timeline", priority := Priority.high, category := "planning" },
    { title := "Assign team members", priority := Priority.high, category := "planning" },
    { title := "Schedule kick-off meeting", priority := Priority.medium, category := "communication" },
    { title := "Create progress reporting template", priority := Priority.low, category := "communication" },
    { title := "Conduct weekly status meetings", priority := Priority.medium, category := "communication" },
    { title := "Review project milestones", priority := Priority.medium, category := "monitoring" },
    { title := "Prepare final delivery", priority := Priority.high, category := "execution" },
    { title := "Project retrospective", priority := Priority.low, category := "closure" } ]

/-- `TASK_TEMPLATES[category] || []`. -/
def templatesFor (category : String) : List TaskTemplate :=
  if category = "development" then developmentTemplates
  else if category = "marketing" then marketingTemplates
  else if category = "general" then generalTemplates
  else []

def developmentKeywords : List String :=
  ["develop", "code", "program", "software", "app", "application", "web", "api",
   "database", "frontend", "backend"]

def marketingKeywords : List String :=
  ["market", "campaign", "content", "social", "brand", "audience", "promotion",
   "advertis", "seo", "media"]

def generalKeywords : List String :=
  ["project", "manage", "plan", "organiz", "schedule", "team", "task", "document",
   "meet", "report"]

/-- Keyword frequencies per category (part_006 lines 395-423). -/
structure CategoryScores where
  development : ℕ
  marketing : ℕ
  general : ℕ
deriving DecidableEq, Repr

/-- Name matches count double, description matches count once
(part_006 lines 406-413). -/
def nameDescScore (keywords : List String) (projectName projectDescription : List Char) : ℕ :=
  keywords.foldl
    (fun score kw =>
      score + countMatches kw.toList projectName * 2 + countMatches kw.toList projectDescription)
    0

/-- Matches inside the joined lowercased existing-task titles
(part_006 lines 415-423). -/
def taskTitleScore (keywords : List String) (existingTaskNames : List Char) : ℕ :=
  keywords.foldl (fun score kw => score + countMatches kw.toList existingTaskNames) 0

def categoryScoresOf (p : Project) (existingTasks : List Task) : CategoryScores :=
  let projectDescription := toLowerList p.description
  let projectName := toLowerList p.name
  let existingTaskNames := joinWithSpace (existingTasks.map (fun t => toLowerList t.title))
  { development :=
      nameDescScore developmentKeywords projectName projectDescription +
        taskTitleScore developmentKeywords existingTaskNames
    marketing :=
      nameDescScore marketingKeywords projectName projectDescription +
        taskTitleScore marketingKeywords existingTaskNames
    general :=
      nameDescScore generalKeywords projectName projectDescription +
        taskTitleScore generalKeywords existingTaskNames }

/-- `Object.entries(scores)`, in insertion order. -/
def scoreEntries (s : CategoryScores) : List (String × ℕ) :=
  [("development", s.development), ("marketing", s.marketing), ("general", s.general)]

/-- The category pick of part_006 lines 425-437: strict-greater scan starting
from `("general", 0)`, then the all-zero fallback to `"general"`. -/
def pickCategory (s : CategoryScores) : String :=
  let best :=
    (scoreEntries s).foldl (fun acc e => if e.2 > acc.2 then e else acc) ("general", 0)
  if best.2 = 0 then "general" else best.1

/-- `scores[category]`. -/
def scoreOf (s : CategoryScores) (category : String) : ℕ :=
  if category = "development" then s.development
  else if category = "marketing" then s.marketing
  else if category = "general" then s.general
  else 0

/-- Simulated confidence (part_006 lines 439-441). -/
def categoryConfidenceOf (s : CategoryScores) (predictedCategory : String) : ℚ :=
  let totalScore := s.development + s.marketing + s.general
  if totalScore > 0 then (scoreOf s predictedCategory : ℚ) / (totalScore : ℚ) else 1/2

/-- A suggested task draft (part_006 lines 488-497). The JS `confidence` field
is the string `(categoryConfidence * 100).toFixed(2)`; the numeric value
`categoryConfidence * 100` is kept here. -/
structure Suggestion where
  title : String
  priority : Priority
  category : String
  description : String
  dueDate : ℤ
  project : String
  assignedTo : String
  createdBy : String
  confidence : ℚ
  method : String
deriving DecidableEq, Repr

/-- The random draws `suggestTasks` consumes: the numbers of the two generic
task titles (`Math.floor(Math.random() * 10) + 1`), and per-suggestion due-date
offsets and member picks. Callers must not assume any distribution (spec §5). -/
structure Rng where
  meetingNum : ℕ
  reviewNum : ℕ
  dueOffset : ℕ → ℕ
  memberIdx : ℕ → ℕ

/-- The generic tasks appended when fewer than `count` templates survive the
duplicate filter (part_006 lines 459-469). -/
def genericTemplatesFor (existingCount : ℕ) (rng : Rng) : List TaskTemplate :=
  [ { title := "Project milestone " ++ natStr (existingCount + 1),
      priority := Priority.high, category := "milestone" },
    { title := "Weekly team meeting " ++ natStr rng.meetingNum,
      priority := Priority.medium, category := "meeting" },
    { title := "Review progress for week " ++ natStr rng.reviewNum,
      priority := Priority.medium, category := "review" } ]

/-- Enhancement of one selected template with project-specific details
(part_006 lines 473-498). -/
def enhanceTemplate (p : Project) (projectId : String) (categoryConfidence : ℚ)
    (method : String) (rng : Rng) (idx : ℕ) (template : TaskTemplate) : Suggestion :=
  let randomDays := rng.dueOffset idx
  let dueDate := p.startDate + randomDays * msPerDay
  let assignedTo :=
    if p.members.length > 0 then p.members.getD (rng.memberIdx idx % p.members.length) p.owner
    else p.owner
  { title := template.title
    priority := template.priority
    category := template.category
    description := "AI-suggested task: " ++ template.title ++ " for project \"" ++ p.name ++ "\""
    dueDate := dueDate
    project := projectId
    assignedTo := assignedTo
    createdBy := p.owner
    confidence := categoryConfidence * 100
    method := method }

/-- The heuristic body of `suggestTasks` after the project and its tasks have
been fetched (part_006 lines 354-505). -/
def suggestTasksHeuristic (rng : Rng) (projectId : String) (p : Project)
    (existingTasks : List Task) (count : ℕ) : List Suggestion :=
  let existingTaskTitles := existingTasks.map (fun t => toLowerList t.title)
  let scores := categoryScoresOf p existingTasks
  let predictedCategory := pickCategory scores
  let categoryConfidence := categoryConfidenceOf scores predictedCategory
  let categoryTasks := templatesFor predictedCategory
  let allTaskTemplates := categoryTasks ++ generalTemplates
  let newTaskTemplates :=
    allTaskTemplates.filter (fun t => !(existingTaskTitles.contains (toLowerList t.title)))
  let newTaskTemplates :=
    if newTaskTemplates.length < count then
      newTaskTemplates ++ genericTemplatesFor existingTasks.length rng
    else newTaskTemplates
  (newTaskTemplates.take count).enum.map
    (fun e => enhanceTemplate p projectId categoryConfidence "heuristic" rng e.1 e.2)

/-- `suggestTasks` (part_006 lines 336-510): validate the identifier before
any fetch, then fetch, then suggest (heuristic path). -/
def suggestTasksService (isValidObjectId : String → Bool) (db : Db) (rng : Rng)
    (projectId : String) (count : ℕ) : Except String (List Suggestion) :=
  if ¬ isValidObjectId projectId then Except.error invalidProjectIdMsg
  else
    match db.findProjectById projectId with
    | none => Except.error projectNotFoundMsg
    | some project =>
      Except.ok (suggestTasksHeuristic rng projectId project
        (db.findTasksByProject projectId) count)

/-! ## Response object shapes
The keys of the object literals each service returns, in source order, for the
`method`-field claims. -/

/-- part_006, `suggestTasks`, lines 488-497 (spread of `{title, priority,
category}` plus the added fields). -/
def suggestionResponseKeys : List String :=
  ["title", "priority", "category", "description", "dueDate", "project",
   "assignedTo", "createdBy", "confidence", "method"]

/-- durationPrediction.js, ML branch of `predictTaskDuration`, lines 304-314. -/
def durationMlResponseKeys : List String :=
  ["taskId", "taskTitle", "predictedDays", "bestCase", "worstCase",
   "estimatedCompletionDate", "confidence", "modelVersion", "method"]

/-- durationPrediction.js, heuristic branch of `predictTaskDuration`,
lines 356-365. -/
def durationHeuristicResponseKeys : List String :=
  ["taskId", "taskTitle", "predictedDays", "bestCase", "worstCase",
   "estimatedCompletionDate", "confidence", "method"]

/-- durationPrediction.js, `predictProjectTimeline`, element pushed at
lines 418-424. -/
def timelineElementKeys : List String :=
  ["taskId", "taskTitle", "predictedDays", "estimatedCompletionDate", "confidence"]

/-- part_006, simplified `predictTaskDuration`, result literal at
lines 578-586. -/
def simpleDurationResponseKeys : List String :=
  ["taskId", "taskTitle", "predictedDays", "bestCase", "worstCase",
   "estimatedCompletionDate", "confidence"]

/-- workflowOptimization.js, `optimizeWorkflow` result literal at
lines 505-519. -/
def workflowResultKeys : List String :=
  ["projectId", "projectName", "analysisDate", "method", "metrics",
   "bottleneckAnalysis", "recommendations", "insights"]

/-! ## Spec-side definition for the schedule-insight comparison -/

/-- Modelled from the spec: "compare actual progress to an *expected* progress
derived from elapsed-time ratio within the project's date span" (spec §4.4,
Step 4). The code of `generateInsights` never reads the project's start date,
so this expected-progress value exists only in the spec. Dates in epoch
milliseconds. -/
def specExpectedProgress (startDate endDate now : ℤ) : ℚ :=
  ((now - startDate : ℤ) : ℚ) / ((endDate - startDate : ℤ) : ℚ)

/-! ## Concrete test fixtures -/

/-- A fixed random source: both generic-task numbers drawn as 1, due-date
offset 0 and member pick 0 for every suggestion. -/
def fixedRng : Rng := ⟨1, 1, fun _ => 0, fun _ => 0⟩

/-- A project whose name and description match no category keyword. -/
def plainProject : Project := ⟨"x", "", 0, 8640000000, "u1", []⟩

/-- Ten existing tasks: the nine general template titles plus a task titled
"Project milestone 11" — exactly the title the Task Suggester will generate
synthetically next (existing count 10, so milestone number 11). -/
def milestoneTasks : List Task :=
  [⟨"Define project scope", Status.todo, Priority.medium, none⟩,
   ⟨"Create project timeline", Status.todo, Priority.medium, none⟩,
   ⟨"Assign team members", Status.todo, Priority.medium, none⟩,
   ⟨"Schedule kick-off meeting", Status.todo, Priority.medium, none⟩,
   ⟨"Create progress reporting template", Status.todo, Priority.medium, none⟩,
   ⟨"Conduct weekly status meetings", Status.todo, Priority.medium, none⟩,
   ⟨"Review project milestones", Status.todo, Priority.medium, none⟩,
   ⟨"Prepare final delivery", Status.todo, Priority.medium, none⟩,
   ⟨"Project retrospective", Status.todo, Priority.medium, none⟩,
   ⟨"Project milestone 11", Status.todo, Priority.medium, none⟩]

/-- A bottleneck dimension at level "low", for insight-generation inputs. -/
def lowDim : BottleneckDim := ⟨0, "low", ""⟩

/-- An analysis whose five dimensions are all at level "low". -/
def lowBottlenecks : BottleneckAnalysis := ⟨lowDim, lowDim, lowDim, lowDim, lowDim⟩

/-- Task counts of a project whose tasks are all completed elsewhere: none in
any status bucket. -/
def zeroTasksByStatus : TasksByStatus := ⟨0, 0, 0, 0⟩

/-! ## Helper lemmas -/

theorem ratFloor_eq_floor (q : ℚ) : ratFloor q = ⌊q⌋ := Rat.floor_def.symm

theorem jsRound_eq_round (q : ℚ) : jsRound q = round q := by
  rw [jsRound, ratFloor_eq_floor, round_eq]

theorem round1_def' (x : ℚ) : round1 x = ((round (x * 10) : ℤ) : ℚ) / 10 := by
  rw [round1, jsRound_eq_round]

theorem adjustForStatus_eq_mul (s : Status) (base : ℚ) :
    adjustForStatus s base = base * statusMultiplier s := by
  cases s <;> simp [adjustForStatus, statusMultiplier]

/-! ## Claim C6 -/

/-- C6: in the heuristic Duration Estimator, `predictedDays` equals the
priority base (high→3, medium→5, low→7) times the status multiplier
(in-progress→0.7, review→0.3, otherwise→1), rounded to one decimal place;
in particular a todo task yields 3.0 / 5.0 / 7.0 days for priority
high / medium / low. -/
theorem c6_predictedDays_formula (t : Task) :
    (predictTaskDurationHeuristic t).predictedDays =
      round1 (basePrediction t.priority * statusMultiplier t.status) ∧
    (predictTaskDurationHeuristic
      { t with priority := Priority.high, status := Status.todo }).predictedDays = 3 ∧
    (predictTaskDurationHeuristic
      { t with priority := Priority.medium, status := Status.todo }).predictedDays = 5 ∧
    (predictTaskDurationHeuristic
      { t with priority := Priority.low, status := Status.todo }).predictedDays = 7 := by
  refine ⟨?_, ?_, ?_, ?_⟩
  · simp only [predictTaskDurationHeuristic, adjustForStatus_eq_mul]
  all_goals
    simp [predictTaskDurationHeuristic, adjustForStatus, basePrediction, round1_def', round_eq]
    norm_num

/-! ## Claim C7 -/

/-- C7: in the heuristic Duration Estimator,
`bestCase ≤ predictedDays ≤ worstCase` always holds, with
`bestCase = max(0.5, round1(predictedDays·0.7))` and
`worstCase = round1(predictedDays·1.5)`. -/
theorem c7_bestCase_le_predicted_le_worstCase (t : Task) :
    (predictTaskDurationHeuristic t).bestCase ≤ (predictTaskDurationHeuristic t).predictedDays ∧
    (predictTaskDurationHeuristic t).predictedDays ≤ (predictTaskDurationHeuristic t).worstCase := by
  obtain ⟨title, s, p, a⟩ := t
  cases p <;> cases s <;>
    · simp [predictTaskDurationHeuristic, adjustForStatus, basePrediction, round1_def', round_eq]
      norm_num

/-! ## Claim C9 -/

/-- C9: the Workflow Analyzer's recommendations list is never empty — when the
dimension-gated rules yield fewer than 2 recommendations, a generic
retrospective recommendation is appended, so at least one is always present. -/
theorem c9_recommendations_nonempty (ba : BottleneckAnalysis) (tasks : List Task)
    (assignments : List MemberWorkload) :
    1 ≤ (generateRecommendations ba tasks assignments).length := by
  simp only [generateRecommendations]
  rcases Nat.lt_or_ge (mainRecommendations ba tasks assignments).length 2 with h | h
  · rw [if_pos h]
    simp
  · rw [if_neg (Nat.not_lt.mpr h)]
    omega

/-! ## Claim C10 -/

theorem foldl_max_map_zero {α : Type} (l : List α) (a : ℕ) :
    (l.map (fun _ => 0)).foldl max a = a := by
  induction l generalizing a with
  | nil => rfl
  | cons x xs ih => simpa using ih a

theorem foldl_min_zero (l : List ℕ) : l.foldl min 0 = 0 := by
  induction l with
  | nil => rfl
  | cons x xs ih => simpa using ih

theorem taskAssignments_empty_tasks (members : List Member) :
    (taskAssignmentsOf [] members).map (fun m => m.assignedTasks) =
      members.map (fun _ => 0) := by
  simp only [taskAssignmentsOf, List.map_map]
  rfl

theorem resourceBottleneck_no_tasks (members : List Member) :
    (bottleneckScoresHeuristic [] members).resourceBottleneck = 1 := by
  simp only [bottleneckScoresHeuristic, taskAssignments_empty_tasks]
  rw [foldl_max_map_zero, foldl_min_zero]
  have hsum : ((members.map (fun _ => 0)).sum : ℕ) = 0 := List.sum_eq_zero (by simp)
  rw [hsum]
  norm_num

/-- C10: for a project with a non-empty team and zero tasks, the heuristic
Workflow Analyzer reports a resourceBottleneck score of exactly 1 with level
"high" (the maximum assigned-task count is clamped to at least 1 while the
average is 0, so teamLoadBalance is 0). -/
theorem c10_zero_tasks_full_resource_bottleneck (projectId : String) (project : Project)
    (members : List Member) (now : ℤ) (_h : members ≠ []) :
    (optimizeWorkflowHeuristic projectId project [] members
        now).bottleneckAnalysis.resourceBottleneck.score = 1 ∧
    (optimizeWorkflowHeuristic projectId project [] members
        now).bottleneckAnalysis.resourceBottleneck.level = "high" := by
  have hs := resourceBottleneck_no_tasks members
  constructor
  · simp only [optimizeWorkflowHeuristic, buildBottleneckAnalysis]
    exact hs
  · simp only [optimizeWorkflowHeuristic, buildBottleneckAnalysis]
    rw [hs]
    norm_num [getBottleneckLevel]

theorem c10_witness :
    (([⟨"u1", "Alice", "alice@example.com"⟩] : List Member) ≠ []) ∧
    ((optimizeWorkflowHeuristic "p1" ⟨"proj", "", 0, 0, "u1", []⟩ []
        [⟨"u1", "Alice", "alice@example.com"⟩]
        0).bottleneckAnalysis.resourceBottleneck.score = 1 ∧
     (optimizeWorkflowHeuristic "p1" ⟨"proj", "", 0, 0, "u1", []⟩ []
        [⟨"u1", "Alice", "alice@example.com"⟩]
        0).bottleneckAnalysis.resourceBottleneck.level = "high") :=
  ⟨List.cons_ne_nil _ _,
   c10_zero_tasks_full_resource_bottleneck "p1" ⟨"proj", "", 0, 0, "u1", []⟩
     [⟨"u1", "Alice", "alice@example.com"⟩] 0 (List.cons_ne_nil _ _)⟩

/-! ## Claim C8 -/

/-- C8: the Workflow Analyzer and the single-task Duration Estimator reject a
malformed identifier before any data fetch (the result does not depend on the
store), report a not-found error when the referenced document is absent, and
in both cases propagate the error with no partial result. -/
theorem c8_error_handling (isValidObjectId : String → Bool) (db db' : Db)
    (now now' : ℤ) (id : String) :
    (isValidObjectId id = false →
      optimizeWorkflowService isValidObjectId db now id = Except.error invalidProjectIdMsg ∧
      predictTaskDurationService isValidObjectId db id = Except.error invalidTaskIdMsg ∧
      optimizeWorkflowService isValidObjectId db now id =
        optimizeWorkflowService isValidObjectId db' now' id ∧
      predictTaskDurationService isValidObjectId db id =
        predictTaskDurationService isValidObjectId db' id) ∧
    (isValidObjectId id = true → db.findProjectById id = none →
      optimizeWorkflowService isValidObjectId db now id = Except.error projectNotFoundMsg) ∧
    (isValidObjectId id = true → db.findTaskById id = none →
      predictTaskDurationService isValidObjectId db id = Except.error taskNotFoundMsg) := by
  refine ⟨fun h => ⟨?_, ?_, ?_, ?_⟩, fun h hp => ?_, fun h ht => ?_⟩ <;>
    simp [optimizeWorkflowService, predictTaskDurationService, h, *]

theorem c8_witness :
    (optimizeWorkflowService (fun _ => false) ⟨fun _ => none, fun _ => none, fun _ => [],
        fun _ => []⟩ 0 "zz" = Except.error invalidProjectIdMsg) ∧
    (optimizeWorkflowService (fun _ => true) ⟨fun _ => none, fun _ => none, fun _ => [],
        fun _ => []⟩ 0 "zz" = Except.error projectNotFoundMsg) ∧
    (predictTaskDurationService (fun _ => true) ⟨fun _ => none, fun _ => none, fun _ => [],
        fun _ => []⟩ "zz" = Except.error taskNotFoundMsg) :=
  ⟨((c8_error_handling (fun _ => false) ⟨fun _ => none, fun _ => none, fun _ => [], fun _ => []⟩
      ⟨fun _ => none, fun _ => none, fun _ => [], fun _ => []⟩ 0 0 "zz").1 rfl).1,
   (c8_error_handling (fun _ => true) ⟨fun _ => none, fun _ => none, fun _ => [], fun _ => []⟩
      ⟨fun _ => none, fun _ => none, fun _ => [], fun _ => []⟩ 0 0 "zz").2.1 rfl rfl,
   (c8_error_handling (fun _ => true) ⟨fun _ => none, fun _ => none, fun _ => [], fun _ => []⟩
      ⟨fun _ => none, fun _ => none, fun _ => [], fun _ => []⟩ 0 0 "zz").2.2 rfl rfl⟩

/-! ## Claim C2 -/

theorem le_foldl_max (l : List ℕ) (a : ℕ) : a ≤ l.foldl max a := by
  induction l generalizing a with
  | nil => exact le_refl a
  | cons x xs ih => exact le_trans (Nat.le_max_left a x) (ih (max a x))

theorem mem_le_foldl_max (l : List ℕ) (a x : ℕ) : x ∈ l → x ≤ l.foldl max a := by
  induction l generalizing a with
  | nil => intro hx; cases hx
  | cons y ys ih =>
    intro hx
    rcases List.mem_cons.mp hx with rfl | hmem
    · exact le_trans (Nat.le_max_right a x) (le_foldl_max ys (max a x))
    · exact ih (max a y) hmem

theorem length_filter_add_length_filter_le {α : Type} (l : List α) (p q : α → Bool)
    (hpq : ∀ x, ¬(p x = true ∧ q x = true)) :
    (l.filter p).length + (l.filter q).length ≤ l.length := by
  induction l with
  | nil => simp
  | cons x xs ih =>
    rcases hp : p x <;> rcases hq : q x
    · simp only [List.filter_cons, hp, hq]
      simp only [List.length_cons]
      simp
      omega
    · simp [List.filter_cons, hp, hq]
      omega
    · simp [List.filter_cons, hp, hq]
      omega
    · exact absurd ⟨hp, hq⟩ (hpq x)

theorem statusFrac_nonneg (count total : ℕ) : 0 ≤ statusFrac count total := by
  unfold statusFrac
  split_ifs
  · exact le_refl 0
  · positivity

theorem statusFrac_le_one (count total : ℕ) (h : count ≤ total) : statusFrac count total ≤ 1 := by
  unfold statusFrac
  split_ifs with ht
  · norm_num
  · rw [div_le_one (by exact_mod_cast Nat.pos_of_ne_zero ht)]
    exact_mod_cast h

theorem resourceBottleneck_mem_unit (tasks : List Task) (members : List Member)
    (h : members ≠ []) :
    0 ≤ (bottleneckScoresHeuristic tasks members).resourceBottleneck ∧
      (bottleneckScoresHeuristic tasks members).resourceBottleneck ≤ 1 := by
  simp only [bottleneckScoresHeuristic]
  set counts := (taskAssignmentsOf tasks members).map (fun m => m.assignedTasks) with hc
  set M := counts.foldl max 1 with hM
  have hM1 : 1 ≤ M := le_foldl_max counts 1
  have hMpos : (0 : ℚ) < (M : ℚ) := by exact_mod_cast Nat.lt_of_lt_of_le Nat.zero_lt_one hM1
  have hlen : counts.length = members.length := by
    simp [hc, taskAssignmentsOf]
  have hlpos : (0 : ℚ) < (members.length : ℚ) := by
    have h0 : members.length ≠ 0 := fun h0 => h (List.length_eq_zero.mp h0)
    exact_mod_cast Nat.pos_of_ne_zero h0
  have havg0 : (0 : ℚ) ≤ (counts.sum : ℚ) / (members.length : ℚ) := by positivity
  have hsum : counts.sum ≤ counts.length * M := by
    have := List.sum_le_card_nsmul counts M (fun x hx => mem_le_foldl_max counts 1 x hx)

    simpa [smul_eq_mul] using this
  have havgM : (counts.sum : ℚ) / (members.length : ℚ) ≤ (M : ℚ) := by
    rw [div_le_iff₀ hlpos]
    calc (counts.sum : ℚ) ≤ ((counts.length * M : ℕ) : ℚ) := by exact_mod_cast hsum
    _ = (members.length : ℚ) * (M : ℚ) := by
        rw [← hlen]
        push_cast
        ring
    _ = (M : ℚ) * (members.length : ℚ) := by ring
  constructor
  · split_ifs with hmm
    · norm_num
    · have key : (1 : ℚ) - (1 - ((M : ℚ) - (counts.sum : ℚ) / (members.length : ℚ)) / (M : ℚ)) =
          ((M : ℚ) - (counts.sum : ℚ) / (members.length : ℚ)) / (M : ℚ) := by ring
      rw [key]
      exact div_nonneg (by linarith) (le_of_lt hMpos)
  · split_ifs with hmm
    · norm_num
    · have key : (1 : ℚ) - (1 - ((M : ℚ) - (counts.sum : ℚ) / (members.length : ℚ)) / (M : ℚ)) =
          ((M : ℚ) - (counts.sum : ℚ) / (members.length : ℚ)) / (M : ℚ) := by ring
      rw [key, div_le_one hMpos]
      linarith

theorem taskDistribution_mem_unit (tasks : List Task) (members : List Member) :
    0 ≤ (bottleneckScoresHeuristic tasks members).taskDistributionScore ∧
      (bottleneckScoresHeuristic tasks members).taskDistributionScore ≤ 1 := by
  simp only [bottleneckScoresHeuristic]
  have h0t : 0 ≤ statusFrac (tasksByStatusOf tasks).todo tasks.length := statusFrac_nonneg _ _
  have h0i : 0 ≤ statusFrac (tasksByStatusOf tasks).inProgress tasks.length :=
    statusFrac_nonneg _ _
  have h0r : 0 ≤ statusFrac (tasksByStatusOf tasks).review tasks.length := statusFrac_nonneg _ _
  have h1t : statusFrac (tasksByStatusOf tasks).todo tasks.length ≤ 1 :=
    statusFrac_le_one _ _ (List.length_filter_le _ _)
  have h1i : statusFrac (tasksByStatusOf tasks).inProgress tasks.length ≤ 1 :=
    statusFrac_le_one _ _ (List.length_filter_le _ _)
  have h1r : statusFrac (tasksByStatusOf tasks).review tasks.length ≤ 1 :=
    statusFrac_le_one _ _ (List.length_filter_le _ _)
  set mf := max (statusFrac (tasksByStatusOf tasks).todo tasks.length)
    (max (statusFrac (tasksByStatusOf tasks).inProgress tasks.length)
      (statusFrac (tasksByStatusOf tasks).review tasks.length)) with hmf
  have h0m : 0 ≤ mf := le_trans h0t (le_max_left _ _)
  have h1m : mf ≤ 1 := max_le h1t (max_le h1i h1r)
  constructor
  · split_ifs with hgt
    · linarith
    · exact h0m
  · split_ifs with hgt
    · linarith
    · exact h1m

theorem workflowEfficiency_bounded (tasks : List Task) (members : List Member) :
    0 ≤ (bottleneckScoresHeuristic tasks members).workflowEfficiency ∧
      (bottleneckScoresHeuristic tasks members).workflowEfficiency ≤ 11/10 := by
  simp only [bottleneckScoresHeuristic]
  have h0i : 0 ≤ statusFrac (tasksByStatusOf tasks).inProgress tasks.length :=
    statusFrac_nonneg _ _
  have h0r : 0 ≤ statusFrac (tasksByStatusOf tasks).review tasks.length := statusFrac_nonneg _ _
  have hsumle : statusFrac (tasksByStatusOf tasks).inProgress tasks.length +
      statusFrac (tasksByStatusOf tasks).review tasks.length ≤ 1 := by
    by_cases htot : tasks.length = 0
    · simp [statusFrac, htot]
    · have hcount : (tasksByStatusOf tasks).inProgress + (tasksByStatusOf tasks).review ≤
          tasks.length := by
        simp only [tasksByStatusOf, countByStatus]
        exact length_filter_add_length_filter_le tasks _ _ (by
          intro t ht
          rcases ht with ⟨h1, h2⟩
          rw [beq_iff_eq] at h1 h2
          rw [h1] at h2
          cases h2)
      have hpos : (0 : ℚ) < (tasks.length : ℚ) := by
        exact_mod_cast Nat.pos_of_ne_zero htot
      simp only [statusFrac, htot, if_neg, ite_false]
      rw [div_add_div_same, div_le_one hpos]
      exact_mod_cast hcount
  set i := statusFrac (tasksByStatusOf tasks).inProgress tasks.length with hi
  set r := statusFrac (tasksByStatusOf tasks).review tasks.length with hr
  constructor
  · positivity
  · rcases abs_cases (i - 3/10) with ⟨h1, _⟩ | ⟨h1, _⟩ <;>
      rcases abs_cases (r - 1/5) with ⟨h2, _⟩ | ⟨h2, _⟩ <;>
      rw [h1, h2] <;> linarith

theorem taskDependency_is_half (tasks : List Task) (members : List Member) :
    (bottleneckScoresHeuristic tasks members).taskDependencyScore = 1/2 := by
  simp only [bottleneckScoresHeuristic]

theorem priorityAlignment_mem_unit (tasks : List Task) (members : List Member) :
    0 ≤ (bottleneckScoresHeuristic tasks members).priorityAlignmentScore ∧
      (bottleneckScoresHeuristic tasks members).priorityAlignmentScore ≤ 1 := by
  simp only [bottleneckScoresHeuristic]
  set hp := tasks.filter (fun t => t.priority == Priority.high) with hhp
  have hip : (hp.filter (fun t => t.status == Status.inProgress)).length ≤ hp.length :=
    List.length_filter_le _ _
  constructor
  · split_ifs with hlen
    · have hpos : (0 : ℚ) < (hp.length : ℚ) := by exact_mod_cast hlen
      have : ((hp.filter (fun t => t.status == Status.inProgress)).length : ℚ) / (hp.length : ℚ) ≤ 1 := by
        rw [div_le_one hpos]
        exact_mod_cast hip
      linarith
    · exact le_refl 0
  · split_ifs with hlen
    · have hpos : (0 : ℚ) < (hp.length : ℚ) := by exact_mod_cast hlen
      have h0 : (0:ℚ) ≤ ((hp.filter (fun t => t.status == Status.inProgress)).length : ℚ) / (hp.length : ℚ) := by
        positivity
      linarith
    · norm_num

/-- C2 as amended: four of the five heuristic bottleneck scores
(resourceBottleneck, taskDistribution, taskDependency, priorityAlignment) lie
in [0,1], but the workflowEfficiency score `|inProgressRatio − 0.3| +
|reviewRatio − 0.2|` is only bounded by 1.1, a bound it attains. -/
theorem c2_scores_bounds (tasks : List Task) (members : List Member) (h : members ≠ []) :
    (0 ≤ (bottleneckScoresHeuristic tasks members).resourceBottleneck ∧
      (bottleneckScoresHeuristic tasks members).resourceBottleneck ≤ 1) ∧
    (0 ≤ (bottleneckScoresHeuristic tasks members).taskDistributionScore ∧
      (bottleneckScoresHeuristic tasks members).taskDistributionScore ≤ 1) ∧
    (0 ≤ (bottleneckScoresHeuristic tasks members).workflowEfficiency ∧
      (bottleneckScoresHeuristic tasks members).workflowEfficiency ≤ 11/10) ∧
    (bottleneckScoresHeuristic tasks members).taskDependencyScore = 1/2 ∧
    (0 ≤ (bottleneckScoresHeuristic tasks members).priorityAlignmentScore ∧
      (bottleneckScoresHeuristic tasks members).priorityAlignmentScore ≤ 1) :=
  ⟨resourceBottleneck_mem_unit tasks members h, taskDistribution_mem_unit tasks members,
   workflowEfficiency_bounded tasks members, taskDependency_is_half tasks members,
   priorityAlignment_mem_unit tasks members⟩

/-- C2 counterexample: a project whose single task is in review yields
workflowEfficiency = |0 − 0.3| + |1 − 0.2| = 1.1 > 1, refuting the claim that
all five scores lie in [0,1]. -/
theorem c2_counterexample :
    (bottleneckScoresHeuristic
        [⟨"Audit the launch checklist", Status.review, Priority.high, some "u1"⟩]
        [⟨"u1", "Alice", "alice@example.com"⟩]).workflowEfficiency = 11/10 ∧
    ¬((bottleneckScoresHeuristic
        [⟨"Audit the launch checklist", Status.review, Priority.high, some "u1"⟩]
        [⟨"u1", "Alice", "alice@example.com"⟩]).workflowEfficiency ≤ 1) := by
  have he : (bottleneckScoresHeuristic
      [⟨"Audit the launch checklist", Status.review, Priority.high, some "u1"⟩]
      [⟨"u1", "Alice", "alice@example.com"⟩]).workflowEfficiency = 11/10 := by
    have hi : (tasksByStatusOf
        [⟨"Audit the launch checklist", Status.review, Priority.high, some "u1"⟩]).inProgress = 0 := by
      decide
    have hr : (tasksByStatusOf
        [⟨"Audit the launch checklist", Status.review, Priority.high, some "u1"⟩]).review = 1 := by
      decide
    simp only [bottleneckScoresHeuristic, hi, hr, List.length_cons, List.length_nil]
    norm_num [statusFrac]
    rw [abs_of_nonneg (by norm_num : (0:ℚ) ≤ 3/10), abs_of_nonneg (by norm_num : (0:ℚ) ≤ 4/5)]
    norm_num
  exact ⟨he, by rw [he]; norm_num⟩

theorem c2_witness :
    (([⟨"u1", "Alice", "alice@example.com"⟩] : List Member) ≠ []) ∧
    ((0 ≤ (bottleneckScoresHeuristic []
        [⟨"u1", "Alice", "alice@example.com"⟩]).resourceBottleneck ∧
      (bottleneckScoresHeuristic [] [⟨"u1", "Alice", "alice@example.com"⟩]).resourceBottleneck ≤ 1) ∧
     (0 ≤ (bottleneckScoresHeuristic [] [⟨"u1", "Alice", "alice@example.com"⟩]).taskDistributionScore ∧
      (bottleneckScoresHeuristic [] [⟨"u1", "Alice", "alice@example.com"⟩]).taskDistributionScore ≤ 1) ∧
     (0 ≤ (bottleneckScoresHeuristic [] [⟨"u1", "Alice", "alice@example.com"⟩]).workflowEfficiency ∧
      (bottleneckScoresHeuristic [] [⟨"u1", "Alice", "alice@example.com"⟩]).workflowEfficiency ≤ 11/10) ∧
     (bottleneckScoresHeuristic [] [⟨"u1", "Alice", "alice@example.com"⟩]).taskDependencyScore = 1/2 ∧
     (0 ≤ (bottleneckScoresHeuristic [] [⟨"u1", "Alice", "alice@example.com"⟩]).priorityAlignmentScore ∧
      (bottleneckScoresHeuristic [] [⟨"u1", "Alice", "alice@example.com"⟩]).priorityAlignmentScore ≤ 1)) :=
  ⟨List.cons_ne_nil _ _,
   c2_scores_bounds [] [⟨"u1", "Alice", "alice@example.com"⟩] (List.cons_ne_nil _ _)⟩

/-! ## Claim C5 -/

theorem pickCategory_eq (s : CategoryScores) :
    pickCategory s =
      if s.general > max s.development s.marketing then "general"
      else if s.marketing > s.development then "marketing"
      else if s.development > 0 then "development"
      else "general" := by
  obtain ⟨d, m, g⟩ := s
  simp only [pickCategory, scoreEntries, List.foldl]
  split_ifs <;> first | rfl | (exfalso; omega)

theorem categoryConfidence_eq_max_div (s : CategoryScores) :
    categoryConfidenceOf s (pickCategory s) =
      if 0 < s.development + s.marketing + s.general then
        ((max s.development (max s.marketing s.general) : ℕ) : ℚ) /
          ((s.development + s.marketing + s.general : ℕ) : ℚ)
      else 1/2 := by
  obtain ⟨d, m, g⟩ := s
  rw [pickCategory_eq]
  by_cases h1 : g > max d m
  · rw [if_pos h1]
    simp only [categoryConfidenceOf, scoreOf]
    rw [if_neg (by decide : ¬("general" = "development")),
      if_neg (by decide : ¬("general" = "marketing")), if_true]
    rw [show max d (max m g) = g from by omega]
  · rw [if_neg h1]
    by_cases h2 : m > d
    · rw [if_pos h2]
      simp only [categoryConfidenceOf, scoreOf]
      rw [if_neg (by decide : ¬("marketing" = "development")), if_true]
      rw [show max d (max m g) = m from by omega]
    · rw [if_neg h2]
      by_cases h3 : d > 0
      · rw [if_pos h3]
        simp only [categoryConfidenceOf, scoreOf]
        rw [if_true]
        rw [show max d (max m g) = d from by omega]
      · rw [if_neg h3]
        simp only [categoryConfidenceOf, scoreOf]
        rw [if_neg (by decide : ¬("general" = "development")),
          if_neg (by decide : ¬("general" = "marketing")), if_true]
        rw [show max d (max m g) = g from by omega]

/-- C5 as amended: in the heuristic Task Suggester the predicted category is
the FIRST category in the fixed order (development, marketing, general) that
attains the maximum keyword score — "general" wins only when it strictly beats
both others or when all scores are zero — and the reported confidence equals
the winning (maximal) score divided by the sum of all scores, or 0.5 when the
sum is zero. -/
theorem c5_pick_first_argmax_and_confidence (p : Project) (tasks : List Task) :
    pickCategory (categoryScoresOf p tasks) =
      (if (categoryScoresOf p tasks).general >
          max (categoryScoresOf p tasks).development (categoryScoresOf p tasks).marketing then
        "general"
      else if (categoryScoresOf p tasks).marketing > (categoryScoresOf p tasks).development then
        "marketing"
      else if (categoryScoresOf p tasks).development > 0 then "development"
      else "general") ∧
    categoryConfidenceOf (categoryScoresOf p tasks) (pickCategory (categoryScoresOf p tasks)) =
      (if 0 < (categoryScoresOf p tasks).development + (categoryScoresOf p tasks).marketing +
          (categoryScoresOf p tasks).general then
        ((max (categoryScoresOf p tasks).development
            (max (categoryScoresOf p tasks).marketing (categoryScoresOf p tasks).general) : ℕ) : ℚ) /
          (((categoryScoresOf p tasks).development + (categoryScoresOf p tasks).marketing +
            (categoryScoresOf p tasks).general : ℕ) : ℚ)
      else 1/2) :=
  ⟨pickCategory_eq (categoryScoresOf p tasks),
   categoryConfidence_eq_max_div (categoryScoresOf p tasks)⟩

/-- C5 counterexample: the project named "develop market" (empty description,
no tasks) scores development = 2 and marketing = 2 — a tie at the maximum
across two categories — yet the predicted category is "development", not
"general". -/
theorem c5_counterexample :
    (categoryScoresOf ⟨"develop market", "", 0, 0, "u1", []⟩ []).development = 2 ∧
    (categoryScoresOf ⟨"develop market", "", 0, 0, "u1", []⟩ []).marketing = 2 ∧
    (categoryScoresOf ⟨"develop market", "", 0, 0, "u1", []⟩ []).general = 0 ∧
    pickCategory (categoryScoresOf ⟨"develop market", "", 0, 0, "u1", []⟩ []) = "development" := by
  refine ⟨by decide, by decide, by decide, by decide⟩

/-! ## Claim C4 -/

theorem map_title_enum_enhance (p : Project) (projectId : String) (conf : ℚ) (meth : String)
    (rng : Rng) (l : List TaskTemplate) :
    ((l.enum.map (fun e => enhanceTemplate p projectId conf meth rng e.1 e.2)).map
        Suggestion.title) = l.map TaskTemplate.title := by
  rw [List.map_map]
  have hfun : (Suggestion.title ∘ fun e => enhanceTemplate p projectId conf meth rng e.1 e.2) =
      (TaskTemplate.title ∘ Prod.snd) := rfl
  rw [hfun, ← List.map_map, List.enum_map_snd]

/-- C4 as amended: a suggestion whose title case-insensitively collides with
an existing task title can only be one of the three synthetically generated
generic tasks (Project milestone k / Weekly team meeting k / Review progress
for week k) — the template-derived candidates are filtered against existing
titles, but the appended generic tasks are not. -/
theorem c4_collision_only_generic (rng : Rng) (projectId : String) (p : Project)
    (tasks : List Task) (count : ℕ) (title : String)
    (h1 : title ∈ (suggestTasksHeuristic rng projectId p tasks count).map Suggestion.title)
    (h2 : (tasks.map (fun t => toLowerList t.title)).contains (toLowerList title) = true) :
    title ∈ (genericTemplatesFor tasks.length rng).map TaskTemplate.title := by
  simp only [suggestTasksHeuristic, map_title_enum_enhance] at h1
  rcases List.mem_map.mp h1 with ⟨t, ht, rfl⟩
  have hmem := List.mem_of_mem_take ht
  by_cases hc : ((templatesFor (pickCategory (categoryScoresOf p tasks)) ++
      generalTemplates).filter (fun tt => !((tasks.map (fun tk => toLowerList tk.title)).contains
        (toLowerList tt.title)))).length < count
  · rw [if_pos hc] at hmem
    rcases List.mem_append.mp hmem with hfil | hgen
    · rcases List.mem_filter.mp hfil with ⟨_, hprop⟩
      rw [Bool.not_eq_true'] at hprop
      rw [hprop] at h2
      exact Bool.noConfusion h2
    · exact List.mem_map_of_mem TaskTemplate.title hgen
  · rw [if_neg hc] at hmem
    rcases List.mem_filter.mp hmem with ⟨_, hprop⟩
    rw [Bool.not_eq_true'] at hprop
    rw [hprop] at h2
    exact Bool.noConfusion h2

set_option maxRecDepth 100000 in
/-- C4 counterexample: with ten existing tasks (the nine general templates
plus "Project milestone 11") every template candidate is filtered out, the
generic tasks are appended unchecked, and the returned suggestion titled
"Project milestone 11" duplicates an existing task title case-insensitively. -/
theorem c4_counterexample :
    ((suggestTasksHeuristic fixedRng "p1" plainProject milestoneTasks 3).any
      (fun s => (milestoneTasks.map (fun t => toLowerList t.title)).contains
        (toLowerList s.title))) = true := by
  decide

set_option maxRecDepth 100000 in
theorem c4_witness :
    ("Project milestone 11" ∈
      (suggestTasksHeuristic fixedRng "p1" plainProject milestoneTasks 3).map
        Suggestion.title) ∧
    ((milestoneTasks.map (fun t => toLowerList t.title)).contains
      (toLowerList "Project milestone 11") = true) ∧
    ("Project milestone 11" ∈
      (genericTemplatesFor milestoneTasks.length fixedRng).map TaskTemplate.title) :=
  ⟨by decide, by decide,
   c4_collision_only_generic fixedRng "p1" plainProject milestoneTasks 3
     "Project milestone 11" (by decide) (by decide)⟩

/-! ## Claim C3 -/

/-- C3: the Task Suggester, the full single-task duration predictor and the
Workflow Analyzer return objects carrying a `method` field (value "heuristic"
on the heuristic path), but the elements returned by
`predictProjectTimeline` (durationPrediction.js lines 418-424) and the result
of the simplified `predictTaskDuration` (part_006 lines 578-586) carry no
`method` field at all. -/
theorem c3_method_field_presence :
    ("method" ∈ suggestionResponseKeys ∧ "method" ∈ durationMlResponseKeys ∧
     "method" ∈ durationHeuristicResponseKeys ∧ "method" ∈ workflowResultKeys) ∧
    ("method" ∉ timelineElementKeys ∧ "method" ∉ simpleDurationResponseKeys) ∧
    (∀ t : Task, (predictTaskDurationHeuristic t).method = "heuristic") ∧
    (∀ (projectId : String) (project : Project) (tasks : List Task) (members : List Member)
      (now : ℤ),
      (optimizeWorkflowHeuristic projectId project tasks members now).method = "heuristic") :=
  ⟨⟨by decide, by decide, by decide, by decide⟩, ⟨by decide, by decide⟩,
   fun _ => rfl, fun _ _ _ _ _ => rfl⟩

/-! ## Claim C1 -/

/-- C1: the `expectedProgress` of `generateInsights` is
`1 − d/(d + p·d/(1−p))`, which collapses to the actual progress `p` itself for
every in-range progress value and non-zero days-remaining — so the
behind-schedule and ahead-of-schedule insights can never fire. A project at 20% actual
progress with half of a 100-day span elapsed gets no schedule insight, even
though the spec's elapsed-time expected progress (0.5) exceeds actual progress
by more than 0.1. -/
theorem c1_expected_progress_degenerate :
    (∀ (d : ℤ) (p : ℚ), 0 ≤ p → p < 1 → (d : ℚ) ≠ 0 → expectedProgressJS d p = p) ∧
    generateInsights lowBottlenecks zeroTasksByStatus 50 (1/5) =
      [⟨"positive", "No high-level bottlenecks detected, indicating good project management practices."⟩] ∧
    (1/5 : ℚ) < specExpectedProgress 0 (100 * msPerDay) (50 * msPerDay) - 1/10 := by
  have hgen : ∀ (d : ℤ) (p : ℚ), 0 ≤ p → p < 1 → (d : ℚ) ≠ 0 → expectedProgressJS d p = p := by
    intro d p h0 h1 hd
    have hp1 : (1 : ℚ) - p ≠ 0 := sub_ne_zero.mpr (ne_of_gt (by linarith))
    rw [expectedProgressJS]
    have hden : (d : ℚ) + p * (d : ℚ) / (1 - p) = (d : ℚ) / (1 - p) := by
      field_simp
      ring
    rw [hden]
    have key : (d : ℚ) / ((d : ℚ) / (1 - p)) = 1 - p := by
      rw [div_div_eq_mul_div, mul_comm, mul_div_assoc, div_self hd, mul_one]
    rw [key]
    ring
  refine ⟨hgen, ?_, ?_⟩
  · have hexp : expectedProgressJS 50 (1/5) = 1/5 :=
      hgen 50 (1/5) (by norm_num) (by norm_num) (by norm_num)
    simp only [generateInsights, hexp, lowBottlenecks, zeroTasksByStatus, analysisValues, lowDim]
    norm_num
    decide
  · rw [specExpectedProgress, msPerDay]
    push_cast
    norm_num

theorem c1_witness : expectedProgressJS 50 (1/5) = 1/5 :=
  c1_expected_progress_degenerate.1 50 (1/5) (by norm_num) (by norm_num) (by norm_num)

end AIPM

